import Mathlib

/-!
Shallow embedding of the quiz chatbot core (`core/reply_factory.py`) and a
verification of its specified properties.

Modelling conventions:
* The static question list (`PYTHON_QUESTION_LIST`, supplied by the missing
  `core/constants.py`) is threaded through every operation as an explicit
  parameter `qs : List Question`.
* A Django session is a record holding the two keys the core reads and
  writes (`current_question_id`, `quiz_answers`, each `Option`-valued since
  the key may be absent or `None`) plus a counter of `session.save()` calls,
  which models the persistence side effect.
* A Python list of message strings that may contain `None` (the cold-start
  path appends the result of `get_next_question`, which can be `None` when
  the question list is empty) is modelled as `List (Option String)`.
* Python float arithmetic in the scorer is modelled by exact rationals, and
  the two-decimal `"%.2f"` display by round-half-to-even on the rational
  value.  Python `str.strip` is modelled by `String.trim`.
* Python list indexing `qs[i]` (with its negative-index wraparound) is
  modelled by `pyGet`; indices outside `[-len, len)` raise `IndexError` in
  Python and are totalised with a default here — no claim reaches them.
-/

structure Question where
  question_text : String
  options : List String
  answer : String
deriving DecidableEq, Inhabited

structure QuizAnswerRecord where
  question_id : Int
  user_answer : String
  correct_answer : String
  is_correct : Bool
deriving DecidableEq, Inhabited

structure Session where
  currentQuestionId : Option Int
  quizAnswers : Option (List QuizAnswerRecord)
  savedCount : Nat
deriving DecidableEq

/-- A fresh Django session: neither key present, no saves yet. -/
def freshSession : Session := ⟨none, none, 0⟩

/-- `session.save()`. -/
def saveSession (s : Session) : Session := { s with savedCount := s.savedCount + 1 }

/-- The list stored under `'quiz_answers'`, read back as `[]` when the key is
absent (`record_current_answer` initialises it to `[]` before appending). -/
def getRecords (s : Session) : List QuizAnswerRecord := s.quizAnswers.getD []

/-- Modelled from the spec: the fixed welcome message string
(`BOT_WELCOME_MESSAGE` in the missing `core/constants.py`); the spec fixes
only that it is a single fixed string emitted on cold start. -/
def BOT_WELCOME_MESSAGE : String := "Welcome to the quiz!"

/-- Python list indexing `qs[i]`: non-negative indices count from the front,
negative indices from the back. -/
def pyGet (qs : List Question) (i : Int) : Question :=
  if 0 ≤ i then qs.getD i.toNat default
  else qs.getD ((qs.length : Int) + i).toNat default

/-- The rendering loop of `get_next_question`:
`for i, option in enumerate(next_question['options'], 1): question_text += f"{i}. {option}\n"`. -/
def renderOptionsLoop (question_text : String) (i : Nat) : List String → String
  | [] => question_text
  | option :: rest =>
      renderOptionsLoop (question_text ++ toString i ++ ". " ++ option ++ "\n") (i + 1) rest

/-- The display text `get_next_question` builds for one question. -/
def renderQuestion (q : Question) : String :=
  renderOptionsLoop (q.question_text ++ "\n\nOptions:\n") 1 q.options

/-- `get_next_question(current_question_id)` from `core/reply_factory.py`. -/
def get_next_question (qs : List Question) (current_question_id : Option Int) :
    Option String × Int :=
  let cid : Int :=
    match current_question_id with
    | none => -1
    | some i => i
  let next_question_id : Int := cid + 1
  if next_question_id < (qs.length : Int) then
    (some (renderQuestion (pyGet qs next_question_id)), next_question_id)
  else
    (none, -1)

/-- `record_current_answer(answer, current_question_id, session)` from
`core/reply_factory.py`.  Returns the `(success, error)` pair together with
the updated session. -/
def record_current_answer (qs : List Question) (answer : String)
    (current_question_id : Option Int) (s : Session) : (Bool × String) × Session :=
  match current_question_id with
  | none => ((false, "No active question"), s)
  | some cid =>
    if cid < 0 then ((false, "No active question"), s)
    else if (qs.length : Int) ≤ cid then ((false, "Invalid question ID"), s)
    else
      let correct_answer := (pyGet qs cid).answer
      let is_correct := answer.trim == correct_answer.trim
      ((true, ""),
        { s with
            quizAnswers := some (getRecords s ++
              [{ question_id := cid, user_answer := answer,
                 correct_answer := correct_answer, is_correct := is_correct }]) })

/-- Round half to even, as Python `"%.2f"` formatting rounds. -/
def roundHalfEven (x : ℚ) : ℤ :=
  let f := ⌊x⌋
  let frac := x - (f : ℚ)
  if frac < 1/2 then f
  else if (1/2 : ℚ) < frac then f + 1
  else if f % 2 = 0 then f else f + 1

/-- `f"{x:.2f}"`, on the rational model of the score percentage. -/
def format2 (x : ℚ) : String :=
  let n := roundHalfEven (x * 100)
  let whole := n / 100
  let fracPart := n % 100
  toString whole ++ "." ++ (if fracPart < 10 then "0" else "") ++ toString fracPart

/-- The breakdown loop of `generate_final_response`:
`for i, answer in enumerate(session['quiz_answers'], 1): result_message += f"\nQ{i}: {status} Your answer: {answer['user_answer']}"`. -/
def breakdownLoop (result_message : String) (i : Nat) : List QuizAnswerRecord → String
  | [] => result_message
  | answer :: rest =>
      breakdownLoop (result_message ++ "\nQ" ++ toString i ++ ": " ++
        (if answer.is_correct then "✓" else "✗") ++
        " Your answer: " ++ answer.user_answer) (i + 1) rest

/-- `generate_final_response(session)` from `core/reply_factory.py`. -/
def generate_final_response (s : Session) : String :=
  match s.quizAnswers with
  | none => "No quiz answers found. Please complete the quiz."
  | some quiz_answers =>
    if quiz_answers.isEmpty then "No quiz answers found. Please complete the quiz."
    else
      let correct_answers := quiz_answers.countP (fun a => a.is_correct)
      let total_questions := quiz_answers.length
      let score_percentage : ℚ := ((correct_answers : ℚ) / (total_questions : ℚ)) * 100
      let result1 := "Quiz Completed!\n\n" ++
        "Your Score: " ++ toString correct_answers ++ "/" ++ toString total_questions ++
        " (" ++ format2 score_percentage ++ "%)\n\n"
      let result2 := result1 ++
        (if score_percentage = 100 then "Excellent! Perfect score!"
         else if 80 ≤ score_percentage then
           "Great job! You have a strong understanding of Python."
         else if 60 ≤ score_percentage then
           "Good effort. You\x27re on the right track with Python."
         else
           "Keep studying. There\x27s room for improvement in your Python skills.")
      breakdownLoop (result2 ++ "\n\nDetailed Breakdown:") 1 quiz_answers

/-- Python truthiness of the `next_question` value tested by
`if next_question:` — `None` and `""` are falsy. -/
def truthyStr : Option String → Bool
  | none => false
  | some s => !(s == "")

/-- `generate_bot_responses(message, session)` from `core/reply_factory.py`.
Returns the bot response list together with the updated session. -/
def generate_bot_responses (qs : List Question) (message : String) (s : Session) :
    List (Option String) × Session :=
  match s.currentQuestionId with
  | none =>
    let fq := get_next_question qs none
    ([some BOT_WELCOME_MESSAGE, fq.1],
     saveSession { s with currentQuestionId := some fq.2 })
  | some current_question_id =>
    let r := record_current_answer qs message (some current_question_id) s
    if !r.1.1 then
      ([some r.1.2], r.2)
    else
      let nq := get_next_question qs (some current_question_id)
      if truthyStr nq.1 then
        ([nq.1], saveSession { r.2 with currentQuestionId := some nq.2 })
      else
        ([some (generate_final_response r.2)],
         saveSession { r.2 with currentQuestionId := none })

/-- A sequence of turns: each user message is dispatched in order, the
session is threaded through, and all response lists are collected. -/
def runCalls (qs : List Question) : Session → List String → List (List (Option String)) × Session
  | s, [] => ([], s)
  | s, m :: ms =>
    let r := generate_bot_responses qs m s
    let rest := runCalls qs r.2 ms
    (r.1 :: rest.1, rest.2)

/-- The session states reachable from a fresh session by dispatching any
sequence of user messages. -/
inductive Reachable (qs : List Question) : Session → Prop
  | fresh : Reachable qs freshSession
  | step (msg : String) (s : Session) :
      Reachable qs s → Reachable qs (generate_bot_responses qs msg s).2

/-- The one-question list of the spec scenario in §8. -/
def demoQs : List Question := [⟨"2+2?", ["3", "4"], "4"⟩]

example : get_next_question demoQs none =
    (some "2+2?\n\nOptions:\n1. 3\n2. 4\n", 0) := by decide

example : (generate_bot_responses demoQs "hi" freshSession).2.currentQuestionId = some 0 := by
  decide

/-! ## Spec-side renderings

These definitions follow the words of the specification (§4.3 and §4.4)
rather than the code; the theorems below compare the code's output against
them. -/

/-- Spec §4.3: each option rendered as `"{1-based index}. {option text}\n"`. -/
def specOptionLine (i : Nat) (option : String) : String :=
  toString i ++ ". " ++ option ++ "\n"

/-- Spec §4.3: display text = `question_text` + the literal separator +
the option lines, in list order, with 1-based numbering. -/
def specRenderQuestion (q : Question) : String :=
  q.question_text ++ "\n\nOptions:\n" ++
    (((List.enumFrom 1 q.options).map fun p => specOptionLine p.1 p.2).foldr (· ++ ·) "")

/-- Spec §4.4: a breakdown line shows a pass/fail glyph and the user's raw
submitted answer. -/
def specBreakdownLine (i : Nat) (r : QuizAnswerRecord) : String :=
  "\nQ" ++ toString i ++ ": " ++ (if r.is_correct then "✓" else "✗") ++
    " Your answer: " ++ r.user_answer

/-- Spec §4.4: one breakdown line per record, in record order. -/
def specBreakdown (recs : List QuizAnswerRecord) : String :=
  (((List.enumFrom 1 recs).map fun p => specBreakdownLine p.1 p.2).foldr (· ++ ·) "")

/-- Spec §4.4: the qualitative remark is selected by fixed thresholds on the
percentage: exactly 100, at least 80, at least 60, otherwise the lowest tier. -/
def specRemark (p : ℚ) : String :=
  if p = 100 then "Excellent! Perfect score!"
  else if 80 ≤ p then "Great job! You have a strong understanding of Python."
  else if 60 ≤ p then "Good effort. You\x27re on the right track with Python."
  else "Keep studying. There\x27s room for improvement in your Python skills."

/-! ## Helper lemmas about the rendering loops -/

lemma renderOptionsLoop_eq (opts : List String) : ∀ (text : String) (i : Nat),
    renderOptionsLoop text i opts =
      text ++ (((List.enumFrom i opts).map fun p => specOptionLine p.1 p.2).foldr (· ++ ·) "") := by
  induction opts with
  | nil => intro text i; simp [renderOptionsLoop, List.enumFrom]
  | cons o rest ih =>
    intro text i
    simp only [renderOptionsLoop, List.enumFrom, List.map_cons, List.foldr_cons, ih,
      specOptionLine, String.append_assoc]

lemma renderQuestion_eq_spec (q : Question) : renderQuestion q = specRenderQuestion q := by
  rw [renderQuestion, renderOptionsLoop_eq, specRenderQuestion, String.append_assoc]

lemma breakdownLoop_eq (recs : List QuizAnswerRecord) : ∀ (text : String) (i : Nat),
    breakdownLoop text i recs =
      text ++ (((List.enumFrom i recs).map fun p => specBreakdownLine p.1 p.2).foldr (· ++ ·) "") := by
  induction recs with
  | nil => intro text i; simp [breakdownLoop, List.enumFrom]
  | cons r rest ih =>
    intro text i
    simp only [breakdownLoop, List.enumFrom, List.map_cons, List.foldr_cons, ih,
      specBreakdownLine, String.append_assoc]

lemma renderOptionsLoop_length (opts : List String) : ∀ (text : String) (i : Nat),
    text.length ≤ (renderOptionsLoop text i opts).length := by
  induction opts with
  | nil => intro text i; simp [renderOptionsLoop]
  | cons o rest ih =>
    intro text i
    calc text.length
        ≤ (text ++ toString i ++ ". " ++ o ++ "\n").length := by
          simp [String.length_append]
          omega
      _ ≤ _ := ih _ (i + 1)

lemma renderQuestion_ne_empty (q : Question) : renderQuestion q ≠ "" := by
  intro h
  rw [renderQuestion] at h
  have h1 := renderOptionsLoop_length q.options (q.question_text ++ "\n\nOptions:\n") 1
  rw [h, String.length_append] at h1
  have h2 : ("" : String).length = 0 := rfl
  have h3 : ("\n\nOptions:\n" : String).length = 11 := rfl
  rw [h2, h3] at h1
  omega

lemma truthy_renderQuestion (q : Question) : truthyStr (some (renderQuestion q)) = true := by
  simp [truthyStr, beq_eq_false_iff_ne, renderQuestion_ne_empty q]

/-! ## Helper lemmas about the recorder -/

/-- The record appended for question `k` when the user submits `ans`. -/
def mkRecord (qs : List Question) (k : Int) (ans : String) : QuizAnswerRecord :=
  { question_id := k, user_answer := ans,
    correct_answer := (qs.getD k.toNat default).answer,
    is_correct := ans.trim == (qs.getD k.toNat default).answer.trim }

lemma pyGet_nonneg (qs : List Question) (k : Int) (h : 0 ≤ k) :
    pyGet qs k = qs.getD k.toNat default := by
  simp [pyGet, h]

lemma record_success_eq (qs : List Question) (ans : String) (s : Session) (k : Int)
    (h0 : 0 ≤ k) (hk : k < (qs.length : Int)) :
    record_current_answer qs ans (some k) s =
      ((true, ""), { s with quizAnswers := some (getRecords s ++ [mkRecord qs k ans]) }) := by
  have h1 : ¬ k < 0 := by omega
  have h2 : ¬ (qs.length : Int) ≤ k := by omega
  simp [record_current_answer, h1, h2, mkRecord, pyGet_nonneg _ _ h0]

lemma record_neg_eq (qs : List Question) (ans : String) (s : Session) (k : Int) (h : k < 0) :
    record_current_answer qs ans (some k) s = ((false, "No active question"), s) := by
  simp [record_current_answer, h]

lemma record_big_eq (qs : List Question) (ans : String) (s : Session) (k : Int)
    (h0 : 0 ≤ k) (h : (qs.length : Int) ≤ k) :
    record_current_answer qs ans (some k) s = ((false, "Invalid question ID"), s) := by
  have h1 : ¬ k < 0 := by omega
  simp [record_current_answer, h1, h]

/-! ## Branch equations for the dispatcher -/

lemma gen_cold_any (qs : List Question) (msg : String) (s : Session)
    (h : s.currentQuestionId = none) :
    generate_bot_responses qs msg s =
      ([some BOT_WELCOME_MESSAGE, (get_next_question qs none).1],
       saveSession { s with currentQuestionId := some (get_next_question qs none).2 }) := by
  simp [generate_bot_responses, h]

lemma get_next_mid (qs : List Question) (k : Int) (h0 : 0 ≤ k + 1)
    (hk : k + 1 < (qs.length : Int)) :
    get_next_question qs (some k) =
      (some (renderQuestion (qs.getD (k + 1).toNat default)), k + 1) := by
  simp [get_next_question, hk, pyGet_nonneg _ _ h0]

lemma get_next_done (qs : List Question) (k : Int) (hk : (qs.length : Int) ≤ k + 1) :
    get_next_question qs (some k) = (none, -1) := by
  simp [get_next_question, show ¬ k + 1 < (qs.length : Int) by omega]

lemma get_next_none_start (qs : List Question) (hlen : (0 : Int) < (qs.length : Int)) :
    get_next_question qs none = (some (renderQuestion (qs.getD 0 default)), 0) := by
  simp [get_next_question, hlen, pyGet_nonneg]

lemma get_next_none_done (qs : List Question) (hlen : (qs.length : Int) ≤ 0) :
    get_next_question qs none = (none, -1) := by
  have h : qs = [] := by
    cases qs with
    | nil => rfl
    | cons a l =>
      simp only [List.length_cons] at hlen
      omega
  subst h
  decide

lemma gen_cold_eq (qs : List Question) (msg : String) (s : Session)
    (h : s.currentQuestionId = none) (hq : qs ≠ []) :
    generate_bot_responses qs msg s =
      ([some BOT_WELCOME_MESSAGE, some (renderQuestion (qs.getD 0 default))],
       saveSession { s with currentQuestionId := some 0 }) := by
  have hlen : (0 : Int) < (qs.length : Int) := by
    have := List.length_pos.mpr hq
    omega
  rw [gen_cold_any qs msg s h, get_next_none_start qs hlen]

lemma gen_mid_eq (qs : List Question) (msg : String) (s : Session) (k : Int)
    (hid : s.currentQuestionId = some k) (h0 : 0 ≤ k) (hk : k + 1 < (qs.length : Int)) :
    generate_bot_responses qs msg s =
      ([some (renderQuestion (qs.getD (k + 1).toNat default))],
       saveSession { s with
                     currentQuestionId := some (k + 1)
                     quizAnswers := some (getRecords s ++ [mkRecord qs k msg]) }) := by
  have hrec := record_success_eq qs msg s k h0 (by omega)
  have hget := get_next_mid qs k (by omega) hk
  simp [generate_bot_responses, hid, hrec, hget, truthy_renderQuestion]

lemma gen_last_eq (qs : List Question) (msg : String) (s : Session) (k : Int)
    (hid : s.currentQuestionId = some k) (h0 : 0 ≤ k)
    (hk1 : k < (qs.length : Int)) (hk2 : (qs.length : Int) ≤ k + 1) :
    generate_bot_responses qs msg s =
      ([some (generate_final_response
          { s with quizAnswers := some (getRecords s ++ [mkRecord qs k msg]) })],
       saveSession { s with
                     currentQuestionId := none
                     quizAnswers := some (getRecords s ++ [mkRecord qs k msg]) }) := by
  have hrec := record_success_eq qs msg s k h0 hk1
  have hget := get_next_done qs k hk2
  simp [generate_bot_responses, hid, hrec, hget, truthyStr]

lemma gen_fail_neg_eq (qs : List Question) (msg : String) (s : Session) (k : Int)
    (hid : s.currentQuestionId = some k) (h : k < 0) :
    generate_bot_responses qs msg s = ([some "No active question"], s) := by
  simp [generate_bot_responses, hid, record_neg_eq qs msg s k h]

lemma gen_fail_big_eq (qs : List Question) (msg : String) (s : Session) (k : Int)
    (hid : s.currentQuestionId = some k) (h0 : 0 ≤ k) (h : (qs.length : Int) ≤ k) :
    generate_bot_responses qs msg s = ([some "Invalid question ID"], s) := by
  simp [generate_bot_responses, hid, record_big_eq qs msg s k h0 h]

/-! ## Claim theorems -/

/-- C1: for every session in which `current_question_id` is absent and any
user message, `generate_bot_responses` returns exactly two messages — the
fixed welcome message followed by question index 0 rendered with its
options — and sets `session['current_question_id']` to 0 before returning
(stated for a non-empty question list, which the rendered question 0
presupposes). -/
theorem c1_cold_start_two_messages (qs : List Question) (msg : String) (s : Session)
    (hq : qs ≠ []) (h : s.currentQuestionId = none) :
    (generate_bot_responses qs msg s).1 =
      [some BOT_WELCOME_MESSAGE, some (renderQuestion (qs.getD 0 default))] ∧
    (generate_bot_responses qs msg s).2.currentQuestionId = some 0 := by
  rw [gen_cold_eq qs msg s h hq]
  exact ⟨rfl, rfl⟩

/-- Witness for C1 at the spec §8 scenario question list. -/
theorem c1_cold_start_two_messages_witness :
    (generate_bot_responses demoQs "hi" freshSession).1 =
      [some BOT_WELCOME_MESSAGE, some (renderQuestion (demoQs.getD 0 default))] ∧
    (generate_bot_responses demoQs "hi" freshSession).2.currentQuestionId = some 0 :=
  c1_cold_start_two_messages demoQs "hi" freshSession (by decide) rfl

/-- C3: for every in-range id, `record_current_answer` returns success with
empty error text and appends exactly one record (initialising the list if
absent) whose `question_id` is the given id, whose `user_answer` is the raw
submitted string, whose `correct_answer` is copied from the question, and
whose `is_correct` is case-sensitive equality of the trimmed answers. -/
theorem c3_record_in_range (qs : List Question) (ans : String) (s : Session) (k : Int)
    (h0 : 0 ≤ k) (hk : k < (qs.length : Int)) :
    record_current_answer qs ans (some k) s =
      ((true, ""),
       { s with quizAnswers := some (getRecords s ++
           [{ question_id := k, user_answer := ans,
              correct_answer := (qs.getD k.toNat default).answer,
              is_correct := ans.trim == (qs.getD k.toNat default).answer.trim }]) }) :=
  record_success_eq qs ans s k h0 hk

/-- Witness for C3: submitting "4" against question 0 of the scenario list. -/
theorem c3_record_in_range_witness :
    record_current_answer demoQs "4" (some 0) freshSession =
      ((true, ""),
       { freshSession with quizAnswers := some (getRecords freshSession ++
           [{ question_id := 0, user_answer := "4",
              correct_answer := (demoQs.getD (0 : Int).toNat default).answer,
              is_correct := "4".trim == (demoQs.getD (0 : Int).toNat default).answer.trim }]) }) :=
  c3_record_in_range demoQs "4" freshSession 0 (by decide) (by decide)

/-- C4: `get_next_question` treats an absent current id as index −1,
computes `next_id = current_id + 1`, returns the rendered question (its
`question_text`, the literal separator, and the 1-based numbered option
lines, per `specRenderQuestion`) paired with `next_id` when in bounds, and
`(absent, -1)` when out of bounds. -/
theorem c4_get_next_question_contract (qs : List Question) (cur : Option Int)
    (h : cur = none ∨ ∃ i, cur = some i ∧ -1 ≤ i) :
    (cur.getD (-1) + 1 < (qs.length : Int) →
      get_next_question qs cur =
        (some (specRenderQuestion (qs.getD (cur.getD (-1) + 1).toNat default)),
         cur.getD (-1) + 1)) ∧
    ((qs.length : Int) ≤ cur.getD (-1) + 1 →
      get_next_question qs cur = (none, -1)) := by
  rcases h with h | ⟨i, hi, hge⟩
  · subst h
    simp only [Option.getD_none]
    constructor
    · intro hlt
      rw [get_next_none_start qs (by omega), renderQuestion_eq_spec]
      norm_num
    · intro hge2
      exact get_next_none_done qs (by omega)
  · subst hi
    simp only [Option.getD_some]
    constructor
    · intro hlt
      rw [get_next_mid qs i (by omega) hlt, renderQuestion_eq_spec]
    · intro hge2
      exact get_next_done qs i hge2

/-- Witness for C4: the scenario question with options `["3", "4"]` renders
with text ending in the numbered option lines. -/
theorem c4_get_next_question_contract_witness :
    get_next_question demoQs none = (some "2+2?\n\nOptions:\n1. 3\n2. 4\n", 0) := by
  have h := (c4_get_next_question_contract demoQs none (Or.inl rfl)).1 (by decide)
  rw [h]
  decide

/-- C6: `record_current_answer` fails by returning a failure result with a
message (the embedding is a total function, mirroring that the code never
raises) exactly when the id is invalid: absent or negative gives
"No active question", too large gives "Invalid question ID", and every
other id succeeds. -/
theorem c6_record_failure_modes (qs : List Question) (ans : String) (s : Session)
    (cid : Option Int) :
    ((cid = none ∨ ∃ k, cid = some k ∧ k < 0) →
      record_current_answer qs ans cid s = ((false, "No active question"), s)) ∧
    ((∃ k, cid = some k ∧ 0 ≤ k ∧ (qs.length : Int) ≤ k) →
      record_current_answer qs ans cid s = ((false, "Invalid question ID"), s)) ∧
    ((∃ k, cid = some k ∧ 0 ≤ k ∧ k < (qs.length : Int)) →
      (record_current_answer qs ans cid s).1.1 = true) := by
  refine ⟨?_, ?_, ?_⟩
  · rintro (h | ⟨k, rfl, hk⟩)
    · subst h; rfl
    · exact record_neg_eq qs ans s k hk
  · rintro ⟨k, rfl, h0, hk⟩
    exact record_big_eq qs ans s k h0 hk
  · rintro ⟨k, rfl, h0, hk⟩
    rw [record_success_eq qs ans s k h0 hk]

/-- Witness for C6: the two failure modes at concrete invalid ids. -/
theorem c6_record_failure_modes_witness :
    record_current_answer demoQs "4" none freshSession =
      ((false, "No active question"), freshSession) ∧
    record_current_answer demoQs "4" (some 5) freshSession =
      ((false, "Invalid question ID"), freshSession) :=
  ⟨(c6_record_failure_modes demoQs "4" freshSession none).1 (Or.inl rfl),
   (c6_record_failure_modes demoQs "4" freshSession (some 5)).2.1
     ⟨5, rfl, by decide, by decide⟩⟩

/-- Counterexample to C7 as stated: with `current_question_id` absent, the
dispatcher takes the cold-start path and returns two messages, not
`["No active question"]`. -/
theorem c7_counterexample :
    (generate_bot_responses demoQs "4" freshSession).1 ≠ [some "No active question"] ∧
    (generate_bot_responses demoQs "4" freshSession).1.length = 2 := by
  decide

/-- C7 amended: submitting an answer with `current_question_id` absent makes
`record_current_answer` (not the dispatcher, which cold-starts instead)
return the failure `"No active question"` and leave the session — in
particular `quiz_answers` — unchanged. -/
theorem c7_amended_no_active_question (qs : List Question) (ans : String) (s : Session) :
    record_current_answer qs ans none s = ((false, "No active question"), s) ∧
    getRecords (record_current_answer qs ans none s).2 = getRecords s :=
  ⟨rfl, rfl⟩

/-- The session of the C8 counterexample: a stored question id that is out
of range for the one-question list. -/
def invalidIdSession : Session := ⟨some 5, none, 0⟩

/-- Counterexample to C8 as stated: on the recorder-failure path the
dispatcher returns without invoking the session's save operation. -/
theorem c8_counterexample :
    ¬ ((generate_bot_responses demoQs "x" invalidIdSession).2.savedCount =
        invalidIdSession.savedCount + 1) := by
  decide

lemma not_or_of_invalid (qs : List Question) (k : Int)
    (hbad : k < 0 ∨ (qs.length : Int) ≤ k) :
    ¬ ((some k : Option Int) = none ∨
        ∃ j : Int, (some k : Option Int) = some j ∧ 0 ≤ j ∧ j < (qs.length : Int)) := by
  rintro (h | ⟨j, hj, h0, hlt⟩)
  · cases h
  · injection hj with e
    subst e
    omega

/-- C8 amended: the save operation is invoked (exactly once) on the
cold-start, next-question and quiz-completion paths, but the
recorder-failure path returns without saving; equivalently, the dispatcher
saves exactly when the stored id is absent or a valid index. -/
theorem c8_amended_save_iff (qs : List Question) (msg : String) (s : Session) :
    ((generate_bot_responses qs msg s).2.savedCount = s.savedCount + 1 ↔
      (s.currentQuestionId = none ∨
        ∃ k, s.currentQuestionId = some k ∧ 0 ≤ k ∧ k < (qs.length : Int))) ∧
    ((∃ k, s.currentQuestionId = some k ∧ (k < 0 ∨ (qs.length : Int) ≤ k)) →
      (generate_bot_responses qs msg s).2.savedCount = s.savedCount) := by
  constructor
  · cases hid : s.currentQuestionId with
    | none =>
      rw [gen_cold_any qs msg s hid]
      exact iff_of_true rfl (Or.inl rfl)
    | some k =>
      by_cases hneg : k < 0
      · rw [gen_fail_neg_eq qs msg s k hid hneg]
        exact iff_of_false (fun hc => Nat.succ_ne_self _ hc.symm)
          (not_or_of_invalid qs k (Or.inl hneg))
      · push_neg at hneg
        by_cases hbig : (qs.length : Int) ≤ k
        · rw [gen_fail_big_eq qs msg s k hid hneg hbig]
          exact iff_of_false (fun hc => Nat.succ_ne_self _ hc.symm)
            (not_or_of_invalid qs k (Or.inr hbig))
        · push_neg at hbig
          by_cases hmid : k + 1 < (qs.length : Int)
          · rw [gen_mid_eq qs msg s k hid hneg hmid]
            exact iff_of_true rfl (Or.inr ⟨k, rfl, hneg, hbig⟩)
          · rw [gen_last_eq qs msg s k hid hneg hbig (by omega)]
            exact iff_of_true rfl (Or.inr ⟨k, rfl, hneg, hbig⟩)
  · rintro ⟨k, hid, hbad⟩
    rcases hbad with hneg | hbig
    · rw [gen_fail_neg_eq qs msg s k hid hneg]
    · have hneg : 0 ≤ k := by omega
      rw [gen_fail_big_eq qs msg s k hid hneg hbig]

/-- Witness for C8 amended: the cold-start path saves exactly once. -/
theorem c8_amended_save_iff_witness :
    (generate_bot_responses demoQs "hi" freshSession).2.savedCount =
      freshSession.savedCount + 1 :=
  (c8_amended_save_iff demoQs "hi" freshSession).1.mpr (Or.inl rfl)

/-- C9: every session state reachable from a fresh session has
`current_question_id` either absent or a valid index into the (non-empty)
question list. -/
theorem c9_reachable_id_in_range (qs : List Question) (s : Session) (hq : qs ≠ [])
    (h : Reachable qs s) :
    s.currentQuestionId = none ∨
      ∃ k : Int, s.currentQuestionId = some k ∧ 0 ≤ k ∧ k < (qs.length : Int) := by
  induction h with
  | fresh => exact Or.inl rfl
  | step msg s hs ih =>
    rcases ih with hid | ⟨k, hid, h0, hk⟩
    · rw [gen_cold_eq qs msg s hid hq]
      refine Or.inr ⟨0, rfl, le_refl 0, ?_⟩
      have := List.length_pos.mpr hq
      omega
    · by_cases hmid : k + 1 < (qs.length : Int)
      · rw [gen_mid_eq qs msg s k hid h0 hmid]
        exact Or.inr ⟨k + 1, rfl, by omega, hmid⟩
      · rw [gen_last_eq qs msg s k hid h0 hk (by omega)]
        exact Or.inl rfl

/-- Witness for C9 at the fresh session of the scenario list. -/
theorem c9_reachable_id_in_range_witness :
    freshSession.currentQuestionId = none ∨
      ∃ k : Int, freshSession.currentQuestionId = some k ∧ 0 ≤ k ∧ k < (demoQs.length : Int) :=
  c9_reachable_id_in_range demoQs freshSession (by decide) Reachable.fresh

lemma record_appends_only (qs : List Question) (ans : String) (cid : Option Int) (s : Session) :
    ∃ t, getRecords (record_current_answer qs ans cid s).2 = getRecords s ++ t := by
  cases cid with
  | none => exact ⟨[], (List.append_nil _).symm⟩
  | some k =>
    by_cases hneg : k < 0
    · rw [record_neg_eq qs ans s k hneg]
      exact ⟨[], (List.append_nil _).symm⟩
    · push_neg at hneg
      by_cases hbig : (qs.length : Int) ≤ k
      · rw [record_big_eq qs ans s k hneg hbig]
        exact ⟨[], (List.append_nil _).symm⟩
      · push_neg at hbig
        rw [record_success_eq qs ans s k hneg hbig]
        exact ⟨[mkRecord qs k ans], by simp [getRecords]⟩

lemma gen_appends_only (qs : List Question) (msg : String) (s : Session) :
    ∃ t, getRecords (generate_bot_responses qs msg s).2 = getRecords s ++ t := by
  cases hid : s.currentQuestionId with
  | none =>
    rw [gen_cold_any qs msg s hid]
    exact ⟨[], by simp [getRecords, saveSession]⟩
  | some k =>
    by_cases hneg : k < 0
    · rw [gen_fail_neg_eq qs msg s k hid hneg]
      exact ⟨[], (List.append_nil _).symm⟩
    · push_neg at hneg
      by_cases hbig : (qs.length : Int) ≤ k
      · rw [gen_fail_big_eq qs msg s k hid hneg hbig]
        exact ⟨[], (List.append_nil _).symm⟩
      · push_neg at hbig
        by_cases hmid : k + 1 < (qs.length : Int)
        · rw [gen_mid_eq qs msg s k hid hneg hmid]
          exact ⟨[mkRecord qs k msg], by simp [getRecords, saveSession]⟩
        · rw [gen_last_eq qs msg s k hid hneg hbig (by omega)]
          exact ⟨[mkRecord qs k msg], by simp [getRecords, saveSession]⟩

lemma runCalls_appends_only (qs : List Question) :
    ∀ (msgs : List String) (s : Session),
      ∃ t, getRecords (runCalls qs s msgs).2 = getRecords s ++ t := by
  intro msgs
  induction msgs with
  | nil => intro s; exact ⟨[], (List.append_nil _).symm⟩
  | cons m ms ih =>
    intro s
    obtain ⟨t1, h1⟩ := gen_appends_only qs m s
    obtain ⟨t2, h2⟩ := ih (generate_bot_responses qs m s).2
    refine ⟨t1 ++ t2, ?_⟩
    show getRecords (runCalls qs (generate_bot_responses qs m s).2 ms).2 = _
    rw [h2, h1, List.append_assoc]

/-- C10: no operation removes or mutates an existing record in
`quiz_answers`: the recorder only appends, any sequence of dispatcher calls
only appends (so records survive across quiz passes), and the length of
`quiz_answers` is non-decreasing across any sequence of calls. -/
theorem c10_answers_append_only (qs : List Question) (s : Session) :
    (∀ ans cid, ∃ t, getRecords (record_current_answer qs ans cid s).2 = getRecords s ++ t) ∧
    (∀ msgs, ∃ t, getRecords (runCalls qs s msgs).2 = getRecords s ++ t) ∧
    (∀ msgs, (getRecords s).length ≤ (getRecords (runCalls qs s msgs).2).length) := by
  refine ⟨fun ans cid => record_appends_only qs ans cid s,
          fun msgs => runCalls_appends_only qs msgs s,
          fun msgs => ?_⟩
  obtain ⟨t, ht⟩ := runCalls_appends_only qs msgs s
  rw [ht, List.length_append]
  omega

lemma gfr_congr (s s' : Session) (h : s.quizAnswers = s'.quizAnswers) :
    generate_final_response s = generate_final_response s' := by
  unfold generate_final_response
  rw [h]

lemma getLast?_cons_of_ne {α : Type} (x : α) (l : List α) (h : l ≠ []) :
    (x :: l).getLast? = l.getLast? := by
  cases l with
  | nil => cases h rfl
  | cons y ys => exact List.getLast?_cons_cons

lemma runCalls_cons (qs : List Question) (s : Session) (m : String) (ms : List String) :
    runCalls qs s (m :: ms) =
      ((generate_bot_responses qs m s).1 ::
         (runCalls qs (generate_bot_responses qs m s).2 ms).1,
       (runCalls qs (generate_bot_responses qs m s).2 ms).2) := rfl

lemma run_to_completion (qs : List Question) :
    ∀ (as : List String) (k : Int) (s : Session),
      s.currentQuestionId = some k → 0 ≤ k →
      k + (as.length : Int) = (qs.length : Int) → as ≠ [] →
      (runCalls qs s as).2.currentQuestionId = none ∧
      (runCalls qs s as).1 ≠ [] ∧
      (runCalls qs s as).1.getLast? =
        some [some (generate_final_response (runCalls qs s as).2)] := by
  intro as
  induction as with
  | nil => intro k s _ _ _ hne; cases hne rfl
  | cons m ms ih =>
    intro k s hid h0 hlen _
    cases ms with
    | nil =>
      have hk1 : k < (qs.length : Int) := by
        simp only [List.length_cons, List.length_nil] at hlen
        push_cast at hlen
        omega
      have hk2 : (qs.length : Int) ≤ k + 1 := by
        simp only [List.length_cons, List.length_nil] at hlen
        push_cast at hlen
        omega
      have hstep := gen_last_eq qs m s k hid h0 hk1 hk2
      have hc : generate_final_response
          { s with quizAnswers := some (getRecords s ++ [mkRecord qs k m]) } =
          generate_final_response (saveSession { s with
            currentQuestionId := none
            quizAnswers := some (getRecords s ++ [mkRecord qs k m]) }) :=
        gfr_congr _ _ rfl
      simp only [runCalls_cons, hstep, runCalls]
      refine ⟨rfl, by simp, ?_⟩
      simp [hc]
    | cons m2 ms2 =>
      have hmid : k + 1 < (qs.length : Int) := by
        simp only [List.length_cons] at hlen
        push_cast at hlen
        omega
      have hstep := gen_mid_eq qs m s k hid h0 hmid
      obtain ⟨ha, hb, hc⟩ := ih (k + 1)
        (saveSession { s with
          currentQuestionId := some (k + 1)
          quizAnswers := some (getRecords s ++ [mkRecord qs k m]) })
        rfl (by omega)
        (by simp only [List.length_cons] at hlen ⊢; push_cast at hlen ⊢; omega)
        (by simp)
      simp only [runCalls_cons, hstep]
      refine ⟨ha, by simp, ?_⟩
      exact (getLast?_cons_of_ne _ _ hb).trans hc

/-- C2: for every question list of length N ≥ 1, starting from a fresh
session, after the cold-start call and N answer calls (each answer is then
recorded successfully), the final call returns exactly one message — the
final scored summary of the session's recorded answers — and resets
`current_question_id` to absent. -/
theorem c2_completion_turn (qs : List Question) (msgs : List String)
    (hq : qs ≠ []) (hm : msgs.length = qs.length + 1) :
    (runCalls qs freshSession msgs).2.currentQuestionId = none ∧
    (runCalls qs freshSession msgs).1.getLast? =
      some [some (generate_final_response (runCalls qs freshSession msgs).2)] := by
  cases msgs with
  | nil => exact absurd hm (by simp)
  | cons m rest =>
    have hrest_ne : rest ≠ [] := by
      intro h
      subst h
      simp only [List.length_cons, List.length_nil] at hm
      have hz : qs.length = 0 := by omega
      exact hq (List.length_eq_zero.mp hz)
    have hcold := gen_cold_eq qs m freshSession rfl hq
    have hlen2 : (0 : Int) + (rest.length : Int) = (qs.length : Int) := by
      simp only [List.length_cons] at hm
      omega
    obtain ⟨ha, hb, hc⟩ := run_to_completion qs rest 0
      (saveSession { freshSession with currentQuestionId := some 0 })
      rfl le_rfl hlen2 hrest_ne
    simp only [runCalls_cons, hcold]
    refine ⟨ha, ?_⟩
    exact (getLast?_cons_of_ne _ _ hb).trans hc

/-- Witness for C2: the scenario list has one question; the second of two
calls returns only the final summary and clears the id. -/
theorem c2_completion_turn_witness :
    (runCalls demoQs freshSession ["hi", "4"]).2.currentQuestionId = none ∧
    (runCalls demoQs freshSession ["hi", "4"]).1.getLast? =
      some [some (generate_final_response (runCalls demoQs freshSession ["hi", "4"]).2)] :=
  c2_completion_turn demoQs ["hi", "4"] (by decide) (by decide)

/-- C5: `generate_final_response` returns the fixed no-answers message when
`quiz_answers` is absent or empty; otherwise the summary's score line shows
`correct/total` with percentage `100 * correct / total` (hence between 0 and
100, displayed to two decimals via `format2`), the qualitative remark is
selected by the fixed thresholds (`specRemark`), and there is one breakdown
line per record in record order, each with a pass/fail glyph and the raw
submitted answer (`specBreakdown`). -/
theorem c5_scorer_contract (s : Session) :
    ((s.quizAnswers = none ∨ s.quizAnswers = some []) →
      generate_final_response s = "No quiz answers found. Please complete the quiz.") ∧
    (∀ recs, s.quizAnswers = some recs → recs ≠ [] →
      (0 : ℚ) ≤ 100 * (recs.countP (fun a => a.is_correct) : ℚ) / (recs.length : ℚ) ∧
      100 * (recs.countP (fun a => a.is_correct) : ℚ) / (recs.length : ℚ) ≤ 100 ∧
      generate_final_response s =
        "Quiz Completed!\n\n" ++ "Your Score: " ++
          toString (recs.countP (fun a => a.is_correct)) ++ "/" ++ toString recs.length ++
          " (" ++
          format2 (100 * (recs.countP (fun a => a.is_correct) : ℚ) / (recs.length : ℚ)) ++
          "%)\n\n" ++
          specRemark (100 * (recs.countP (fun a => a.is_correct) : ℚ) / (recs.length : ℚ)) ++
          "\n\nDetailed Breakdown:" ++ specBreakdown recs) := by
  constructor
  · rintro (h | h) <;> simp [generate_final_response, h]
  · intro recs hqa hne
    have htpos : 0 < recs.length := List.length_pos.mpr hne
    have htQ : (0 : ℚ) < (recs.length : ℚ) := by exact_mod_cast htpos
    have hcle : recs.countP (fun a => a.is_correct) ≤ recs.length := List.countP_le_length _
    have hcleQ : (recs.countP (fun a => a.is_correct) : ℚ) ≤ (recs.length : ℚ) := by
      exact_mod_cast hcle
    refine ⟨by positivity, ?_, ?_⟩
    · rw [div_le_iff₀ htQ]
      linarith
    · have hEmpty : recs.isEmpty = false := by
        cases recs with
        | nil => cases hne rfl
        | cons a l => rfl
      have hp : (recs.countP (fun a => a.is_correct) : ℚ) / (recs.length : ℚ) * 100 =
          100 * (recs.countP (fun a => a.is_correct) : ℚ) / (recs.length : ℚ) := by
        ring
      simp only [generate_final_response, hqa, hEmpty, Bool.false_eq_true, if_false, hp,
        breakdownLoop_eq, specRemark, specBreakdown]

/-- The spec §8 scenario record: question 0 answered "4", correctly. -/
def demoRecord : QuizAnswerRecord := ⟨0, "4", "4", true⟩

/-- A session that has completed the scenario quiz with one correct answer. -/
def demoAnswered : Session := ⟨none, some [demoRecord], 0⟩

/-- Witness for C5 at a one-record answer list. -/
theorem c5_scorer_contract_witness :
    (0 : ℚ) ≤ 100 * (([demoRecord].countP (fun a => a.is_correct)) : ℚ) /
        (([demoRecord] : List QuizAnswerRecord).length : ℚ) ∧
    100 * (([demoRecord].countP (fun a => a.is_correct)) : ℚ) /
        (([demoRecord] : List QuizAnswerRecord).length : ℚ) ≤ 100 ∧
    generate_final_response demoAnswered =
      "Quiz Completed!\n\n" ++ "Your Score: " ++
        toString ([demoRecord].countP (fun a => a.is_correct)) ++ "/" ++
        toString ([demoRecord] : List QuizAnswerRecord).length ++
        " (" ++
        format2 (100 * (([demoRecord].countP (fun a => a.is_correct)) : ℚ) /
          (([demoRecord] : List QuizAnswerRecord).length : ℚ)) ++
        "%)\n\n" ++
        specRemark (100 * (([demoRecord].countP (fun a => a.is_correct)) : ℚ) /
          (([demoRecord] : List QuizAnswerRecord).length : ℚ)) ++
        "\n\nDetailed Breakdown:" ++ specBreakdown [demoRecord] :=
  (c5_scorer_contract demoAnswered).2 [demoRecord] rfl (by decide)
